import Mathlib

/-!
Verification development for the oci-env configuration/profile compiler
(`client/oci_env/utils.py`).

The relevant Python functions (`read_env_file`, `get_config`,
`parse_profiles`) are shallowly embedded here.  Python strings are Lean
`String`s; the Python `str` primitives used by the code (`split`, `strip`,
`startswith`, `os.path.join`, `os.path.normpath`, `str.format`, line
iteration over a file) are modelled by executable helper functions below.
The filesystem is abstracted as a pair of functions (`isdir`, file
contents), and the process-terminating `exit(1)` calls are modelled with
`Except`: an `.error` result corresponds to the process printing the
message and terminating with exit status 1.
-/

namespace OciEnv

/-- Decidable equality for `Except`, so that concrete runs of the model
can be checked by `decide`. -/
instance {ε α : Type} [DecidableEq ε] [DecidableEq α] :
    DecidableEq (Except ε α)
  | .error e, .error f =>
    if h : e = f then .isTrue (by rw [h]) else .isFalse (by simp [h])
  | .error _, .ok _ => .isFalse (by simp)
  | .ok _, .error _ => .isFalse (by simp)
  | .ok a, .ok b =>
    if h : a = b then .isTrue (by rw [h]) else .isFalse (by simp [h])

/-- Membership test of a character in a character list, used to model
Python `c in s` and the character sets of `str.strip`. -/
def hasChar (c : Char) : List Char → Bool
  | [] => false
  | x :: xs => x == c || hasChar c xs

/-- Models Python `s.startswith(c)` for a single-character prefix. -/
def strStartsWithChar (s : String) (c : Char) : Bool :=
  match s.data with
  | [] => false
  | x :: _ => x == c

/-- Models Python `s.endswith(c)` for a single-character suffix. -/
def strEndsWithChar (s : String) (c : Char) : Bool :=
  match s.data.getLast? with
  | none => false
  | some x => x == c

/-- Models Python `s.split(c)` on a character list: splits at every
occurrence of `c`, keeping empty pieces; the result is always nonempty
(splitting the empty list yields `[[]]`, as Python's `"".split(c)` yields
`[""]`). -/
def pySplitChar (c : Char) : List Char → List (List Char)
  | [] => [[]]
  | x :: xs =>
    match pySplitChar c xs with
    | [] => [[]]
    | h :: t => if x == c then [] :: h :: t else (x :: h) :: t

/-- Models Python `s.split(c)` for a one-character separator. -/
def pySplit (c : Char) (s : String) : List String :=
  (pySplitChar c s.data).map (fun l => ⟨l⟩)

/-- Helper for `pySplit1`: splits a character list at the first occurrence
of `c`, returning the parts before and after it (the whole list and `[]`
when `c` does not occur). -/
def splitFirstAux (c : Char) : List Char → List Char × List Char
  | [] => ([], [])
  | x :: xs =>
    if x == c then ([], xs)
    else
      let r := splitFirstAux c xs
      (x :: r.1, r.2)

/-- Models Python `s.split(c, maxsplit=1)` at the first occurrence of `c`
(the code only uses the result when `c` occurs in `s`). -/
def pySplit1 (c : Char) (s : String) : String × String :=
  let r := splitFirstAux c s.data
  (⟨r.1⟩, ⟨r.2⟩)

/-- Models Python `s.strip(chars)`: removes from both ends every leading
and trailing character belonging to `cs`. -/
def pyStripChars (cs : List Char) (s : String) : String :=
  ⟨((s.data.dropWhile (fun x => hasChar x cs)).reverse.dropWhile
      (fun x => hasChar x cs)).reverse⟩

/-- The ASCII whitespace characters stripped by Python `s.strip()` with no
argument (space, tab, newline, carriage return, vertical tab, form feed). -/
def pySpaceChars : List Char :=
  [' ', '\t', '\n', '\r', Char.ofNat 11, Char.ofNat 12]

/-- Models Python `s.strip()` (ASCII whitespace). -/
def pyStripWs (s : String) : String := pyStripChars pySpaceChars s

/-- Helper for `pyLines`; `acc` holds the current (reversed) line. -/
def pyLinesAux : List Char → List Char → List (List Char)
  | acc, [] => if acc.isEmpty then [] else [acc.reverse]
  | acc, x :: xs =>
    if x == '\n' then (acc.reverse ++ ['\n']) :: pyLinesAux [] xs
    else pyLinesAux (x :: acc) xs

/-- Models Python line iteration `for line in f` over a file whose whole
contents are `s`: each line keeps its trailing newline, and a final
newline-less fragment forms a last line.  An empty file yields no lines. -/
def pyLines (s : String) : List String :=
  (pyLinesAux [] s.data).map (fun l => ⟨l⟩)

/-- Models Python `os.path.join(a, b)` for POSIX paths: an absolute `b`
discards `a`; otherwise a separator is inserted unless `a` is empty or
already ends with one. -/
def pyJoin2 (a b : String) : String :=
  if strStartsWithChar b '/' then b
  else if a == "" || strEndsWithChar a '/' then a ++ b
  else a ++ "/" ++ b

/-- Models the variadic Python `os.path.join`, folding `pyJoin2` over the
components. -/
def pyJoinList : List String → String
  | [] => ""
  | x :: xs => xs.foldl pyJoin2 x

/-- Models Python `posixpath.normpath`: collapses `.` components, empty
components and `..` components (a rooted path drops a leading `..`), and
canonicalises the leading slashes. -/
def pyNormpath (p : String) : String :=
  if p == "" then "."
  else
    let slashes : Nat :=
      if p.data.take 2 = ['/', '/'] ∧ p.data.take 3 ≠ ['/', '/', '/'] then 2
      else if strStartsWithChar p '/' then 1
      else 0
    let comps := pySplitChar '/' p.data
    let stack := comps.foldl (fun st comp =>
      if comp = [] ∨ comp = ['.'] then st
      else if comp ≠ ['.', '.'] ∨ (slashes = 0 ∧ st = []) ∨
          st.head? = some ['.', '.'] then comp :: st
      else
        match st with
        | [] => []
        | _ :: rest => rest) []
    let body := String.intercalate "/" (stack.reverse.map (fun l => ⟨l⟩))
    let res := String.mk (List.replicate slashes '/') ++ body
    if res == "" then "." else res

/-- Models Python `os.path.abspath` relative to a current working
directory `cwd`: a relative path is first joined onto `cwd`, then the
result is normalised. -/
def pyAbspath (cwd p : String) : String :=
  if strStartsWithChar p '/' then pyNormpath p
  else pyNormpath (pyJoin2 cwd p)

/-- Models `path.strip(os.sep).split(os.sep)[-1]` from `get_config`: the
last path segment of `path` after removing leading/trailing separators. -/
def ociDirOf (path : String) : String :=
  ((pySplit '/' (pyStripChars ['/'] path)).getLast?).getD ""

/-- Models `s.replace("/", "_")`, used to sanitise profile references into
output file names. -/
def sanitizeName (s : String) : String :=
  ⟨s.data.map (fun c => if c == '/' then '_' else c)⟩

/-- The two ways `str.format` fails on the templates used by this code:
a replacement field whose key is missing from the mapping (Python
`KeyError`, caught by `parse_profiles`), and a malformed or
positional/auto-numbered field (Python `ValueError`/`IndexError`, which
`parse_profiles` does not catch). -/
inductive FmtErr where
  | keyError (key : String)
  | valueError
deriving DecidableEq

/-- Prepends a character to the payload of a successful format result. -/
def exCons (c : Char) : Except FmtErr (List Char) → Except FmtErr (List Char)
  | .ok l => .ok (c :: l)
  | .error e => .error e

/-- Prepends a character list to the payload of a successful format
result. -/
def exPrepend (v : List Char) :
    Except FmtErr (List Char) → Except FmtErr (List Char)
  | .ok l => .ok (v ++ l)
  | .error e => .error e

/-- Core scanner of the `str.format` model.  `mode = none` scans literal
text: `\x7b\x7b` and `\x7d\x7d` emit one literal brace, `\x7b` opens a
replacement field, and a lone `\x7d` is an error.  `mode = some acc`
accumulates the characters of a field name (reversed in `acc`) until the
closing brace; a nested opening brace inside a field and an unterminated
field are errors.  On closing, an empty or all-digit field name is a
positional field — an error here, since the code never passes positional
arguments (Python raises `IndexError`) — and otherwise the whole field
text is looked up as a keyword key.  This models `str.format(**config)`
for the simple replacement fields these templates use; fields with
conversions (`!`), format specs (`:`), attribute or index access are not
given their Python meaning (their text is treated as part of the key). -/
def pyFmtGo (m : String → Option String) :
    List Char → Option (List Char) → Except FmtErr (List Char)
  | [], none => .ok []
  | [], some _ => .error .valueError
  | '{' :: '{' :: rest, none => exCons '{' (pyFmtGo m rest none)
  | '}' :: '}' :: rest, none => exCons '}' (pyFmtGo m rest none)
  | '{' :: rest, none => pyFmtGo m rest (some [])
  | '}' :: _, none => .error .valueError
  | c :: rest, none => exCons c (pyFmtGo m rest none)
  | c :: rest, some acc =>
    if c == '}' then
      if acc.reverse.all Char.isDigit then .error .valueError
      else
        match m ⟨acc.reverse⟩ with
        | none => .error (.keyError ⟨acc.reverse⟩)
        | some v => exPrepend v.data (pyFmtGo m rest none)
    else if c == '{' then .error .valueError
    else pyFmtGo m rest (some (c :: acc))

/-- Models Python `s.format(**m)` where `m` is the configuration mapping
(see `pyFmtGo` for the exact field-name discipline). -/
def pyFormat (s : String) (m : String → Option String) :
    Except FmtErr String :=
  match pyFmtGo m s.data none with
  | .ok l => .ok ⟨l⟩
  | .error e => .error e

/-- A string containing no brace characters at all (such text is copied
verbatim by `str.format`). -/
def braceFree (s : String) : Bool :=
  s.data.all (fun c => !(c == '{') && !(c == '}'))

/-- The filesystem as observed by one run: a directory-existence test
(`os.path.isdir`) and the contents of each readable file (`none` models
`FileNotFoundError` on `open`, and a false `os.path.isfile`). -/
structure FS where
  isdir : String → Bool
  fileContents : String → Option String

/-- The ways a run terminates early with `exit(1)`: the missing
`.compose.env` file, a profile directory that does not exist, a template
referencing an undefined configuration key (the printed message names the
offending file and the variable), and an uncaught formatting error. -/
inductive RunError where
  | missingEnvFile (path : String)
  | profileNotFound (profile : String) (path : String)
  | templateVar (file : String) (key : String)
  | formatError (file : String)
deriving DecidableEq

/-- The process exit status of a run modelled with `Except`: `exit(1)` on
any of the fatal errors, 0 otherwise. -/
def runExitCode {α : Type} : Except RunError α → Nat
  | .ok _ => 0
  | .error _ => 1

/-- The characters stripped from the key of a `.compose.env` line:
`key.strip("' \"")` (apostrophe, space, double quote). -/
def stripKeyChars : List Char := [Char.ofNat 39, ' ', Char.ofNat 34]

/-- The characters stripped from the value of a `.compose.env` line:
`val.strip("' \"\n")` (additionally the newline). -/
def stripValChars : List Char := [Char.ofNat 39, ' ', Char.ofNat 34, '\n']

/-- The body of the line loop of `read_env_file` (utils.py lines 18-22):
lines that do not start with `#` and contain `=` are split at the first
`=` and contribute a stripped key/value pair; every other line is
skipped. -/
def envFileStep (acc : List (String × String)) (line : String) :
    List (String × String) :=
  if strStartsWithChar line '#' = false ∧ hasChar '=' line.data then
    acc ++ [(pyStripChars stripKeyChars (pySplit1 '=' line).1,
             pyStripChars stripValChars (pySplit1 '=' line).2)]
  else acc

/-- Embeds `read_env_file` (utils.py lines 10-28), applied to the contents
of an existing file.  The Python dictionary is modelled as the
association list of insertions in file order; lookup takes the last
binding (`cfgLookup`). -/
def read_env_file (content : String) : List (String × String) :=
  (pyLines content).foldl envFileStep []

/-- Lookup in an association list with Python-dictionary semantics: the
most recent (last) binding of a key wins. -/
def cfgLookup (d : List (String × String)) (k : String) : Option String :=
  match d.reverse.find? (fun e => e.1 == k) with
  | some e => some e.2
  | none => none

/-- The `constant_vals` dictionary of `get_config` (utils.py lines 38-41):
computed from the base path, highest precedence. -/
def constant_vals (path : String) : List (String × String) :=
  [("OCI_ENV_DIRECTORY", ociDirOf path), ("COMPOSE_CONTEXT", path)]

/-- The `config` defaults dictionary of `get_config` (utils.py lines
44-62), in source order. -/
def default_config (path : String) : List (String × String) :=
  [("DEV_SOURCE_PATH", ""),
   ("COMPOSE_PROFILE", ""),
   ("DJANGO_SUPERUSER_USERNAME", "admin"),
   ("DJANGO_SUPERUSER_PASSWORD", "password"),
   ("API_HOST", "localhost"),
   ("API_PORT", "5001"),
   ("API_PROTOCOL", "http"),
   ("COMPOSE_PROJECT_NAME", ociDirOf path),
   ("COMPOSE_BINARY", "podman"),
   ("API_CONTAINER", "pulp"),
   ("DB_CONTAINER", "pulp"),
   ("CONTENT_APP_CONTAINER", "pulp"),
   ("WORKER_CONTAINER", "pulp"),
   ("DEV_IMAGE_SUFFIX", ""),
   ("DEV_VOLUME_SUFFIX", ""),
   ("NGINX_PORT", "5001"),
   ("NGINX_SSL_PORT", "443")]

/-- The merged dictionary `{**config, **user_preferences, **constant_vals}`
(utils.py line 67), as the concatenation of the three association lists;
under `cfgLookup` the later (higher-precedence) lists win. -/
def resolved_config (path content : String) : List (String × String) :=
  default_config path ++ read_env_file content ++ constant_vals path

/-- Embeds `get_config` (utils.py lines 31-67).  `userFile` is the
contents of `<path>/.compose.env`, or `none` when that file does not exist
(in which case `read_env_file` prints a message and exits 1). -/
def get_config (path : String) (userFile : Option String) :
    Except RunError (List (String × String)) :=
  match userFile with
  | none => .error (.missingEnvFile (pyJoin2 path ".compose.env"))
  | some content => .ok (resolved_config path content)

/-- A profile descriptor as built by `parse_profiles`: the on-disk source
directory, the reference name from `COMPOSE_PROFILE` (or `"base"`), and
the path the directory appears at inside the container. -/
structure Profile where
  path : String
  name : String
  container_path : String
deriving DecidableEq

/-- The synthetic base descriptor always placed first (utils.py lines
81-91). -/
def baseProfile (path ociDir : String) : Profile :=
  ⟨pyJoin2 path "base", "base", pyJoinList ["/src", ociDir, "base"]⟩

/-- The container-visible path of a non-base profile,
`os.path.join("/src", plugin, "profiles", name)` (utils.py lines
113-118). -/
def mkContainerPath (plugin name : String) : String :=
  pyJoinList ["/src", plugin, "profiles", name]

/-- The loop body of utils.py lines 95-104: resolves one `COMPOSE_PROFILE`
token to `(plugin, name, profile_path)`.  A token containing `/` is split
at the first `/` into plugin and profile name and resolved against the
sibling plugin directory (with `os.path.abspath`); otherwise the token is
a profile of the run root itself. -/
def resolveToken (cwd path ociDir profile : String) :
    String × String × String :=
  if hasChar '/' profile.data then
    let pq := pySplit1 '/' profile
    (pq.1, pq.2,
     pyAbspath cwd (pyJoinList [path, "..", pq.1, "profiles", pq.2]))
  else
    (ociDir, profile, pyJoinList [path, "profiles", profile])

/-- The resolution loop of utils.py lines 94-119: checks each token's
directory and appends its descriptor, or prints the
profile-does-not-exist message and exits 1. -/
def resolveTokensLoop (cwd path ociDir : String) (isdir : String → Bool) :
    List Profile → List String → Except RunError (List Profile)
  | acc, [] => .ok acc
  | acc, t :: ts =>
    let r := resolveToken cwd path ociDir t
    if isdir r.2.2 then
      resolveTokensLoop cwd path ociDir isdir
        (acc ++ [⟨r.2.2, t, mkContainerPath r.1 r.2.1⟩]) ts
    else .error (.profileNotFound t r.2.2)

/-- The `profile_paths` computation of `parse_profiles` (utils.py lines
74-119): splits `COMPOSE_PROFILE` on `:`, prepends the base descriptor,
and resolves every token.  `parse_profiles` is only ever called on the
result of `get_config`, which always defines `COMPOSE_PROFILE` and
`OCI_ENV_DIRECTORY`; the `getD ""` defaults are never exercised there. -/
def resolve_profile_paths (cwd path : String) (fs : FS)
    (cfg : String → Option String) : Except RunError (List Profile) :=
  resolveTokensLoop cwd path ((cfg "OCI_ENV_DIRECTORY").getD "") fs.isdir
    [baseProfile path ((cfg "OCI_ENV_DIRECTORY").getD "")]
    (pySplit ':' ((cfg "COMPOSE_PROFILE").getD ""))

/-- The in-memory buffers accumulated by the compilation loop of
`parse_profiles`: the init-script lines, the combined env lines, the
compose files written so far (path and contents, in write order), and the
list of compose file paths to return. -/
structure CompAcc where
  initScript : List String
  envOutput : List String
  composeWrites : List (String × String)
  composeFiles : List String
deriving DecidableEq

/-- The initial `init_script` buffer (utils.py lines 121-127). -/
def initAcc : CompAcc :=
  ⟨["#!/bin/bash", "",
    "# AUTOGENERATED by oci-env",
    "# This script runs automatically when the container starts.", ""],
   [], [], []⟩

/-- The per-line loop of utils.py lines 148-157: strips each line of the
env template and formats it against the configuration, stopping at the
first `KeyError` with the message naming the file and the missing
variable (exit 1); an uncaught formatting error also aborts the run. -/
def formatEnvLines (cfg : String → Option String) (file : String) :
    List String → Except RunError (List String)
  | [] => .ok []
  | l :: ls =>
    match pyFormat (pyStripWs l) cfg with
    | .error (.keyError k) => .error (.templateVar file k)
    | .error .valueError => .error (.formatError file)
    | .ok s =>
      match formatEnvLines cfg file ls with
      | .error e => .error e
      | .ok rest => .ok (s :: rest)

/-- The compose-file step of utils.py lines 161-187: reads the profile's
`compose.yaml` if present, formats the whole text (a `KeyError` prints
the message naming the file and the variable and exits 1), and records
the write of `.compiled/<sanitized-name>_compose.yaml` and the returned
path. -/
def compileCompose (fileContents : String → Option String)
    (cfg : String → Option String) (compiledPath : String) (acc : CompAcc)
    (p : Profile) : Except RunError CompAcc :=
  match fileContents (pyJoin2 p.path "compose.yaml") with
  | none => .ok acc
  | some data =>
    match pyFormat data cfg with
    | .error (.keyError k) =>
      .error (.templateVar (pyJoin2 p.path "compose.yaml") k)
    | .error .valueError =>
      .error (.formatError (pyJoin2 p.path "compose.yaml"))
    | .ok out =>
      .ok { acc with
            composeWrites := acc.composeWrites ++
              [(pyJoin2 compiledPath (sanitizeName p.name ++ "_compose.yaml"),
                out)],
            composeFiles := acc.composeFiles ++
              [pyJoin2 compiledPath (sanitizeName p.name ++ "_compose.yaml")] }

/-- One iteration of the compilation loop of utils.py lines 134-187 for a
profile descriptor: append the init line if `<profile>/init.sh` exists,
format and append the lines of `<profile>/pulp_config.env` if it exists,
then handle `<profile>/compose.yaml`. -/
def compileStep (fileContents : String → Option String)
    (cfg : String → Option String) (compiledPath : String) (acc : CompAcc)
    (p : Profile) : Except RunError CompAcc :=
  let acc1 :=
    if (fileContents (pyJoin2 p.path "init.sh")).isSome then
      { acc with initScript := acc.initScript ++
          ["bash " ++ pyJoin2 p.container_path "init.sh"] }
    else acc
  match fileContents (pyJoin2 p.path "pulp_config.env") with
  | none => compileCompose fileContents cfg compiledPath acc1 p
  | some content =>
    match formatEnvLines cfg (pyJoin2 p.path "pulp_config.env")
        (pyLines content) with
    | .error e => .error e
    | .ok outs =>
      compileCompose fileContents cfg compiledPath
        { acc1 with envOutput := acc1.envOutput ++ outs } p

/-- The compilation loop of utils.py lines 134-187 over all resolved
profiles. -/
def compileProfiles (fileContents : String → Option String)
    (cfg : String → Option String) (compiledPath : String) :
    CompAcc → List Profile → Except RunError CompAcc
  | acc, [] => .ok acc
  | acc, p :: ps =>
    match compileStep fileContents cfg compiledPath acc p with
    | .error e => .error e
    | .ok acc2 => compileProfiles fileContents cfg compiledPath acc2 ps

/-- The outcome of a successful `parse_profiles` run: every file write it
performs under `.compiled/` (compose files in loop order, then `init.sh`,
then `combined.env`, matching utils.py lines 183-193) and the returned
list of compose file paths (line 195). -/
structure CompileResult where
  writes : List (String × String)
  composeFiles : List String
deriving DecidableEq

/-- Embeds `parse_profiles` (utils.py lines 70-195) over the abstract
filesystem `fs`, with `cwd` the process working directory (used only by
`os.path.abspath`) and `path` the run root from `get_oci_env_path`.  The
`mkdir(exist_ok=True)` of `.compiled` is a no-op in this model. -/
def parse_profiles (cwd path : String) (fs : FS)
    (cfg : String → Option String) : Except RunError CompileResult :=
  let compiledPath := pyJoin2 path ".compiled"
  match resolve_profile_paths cwd path fs cfg with
  | .error e => .error e
  | .ok ps =>
    match compileProfiles fs.fileContents cfg compiledPath initAcc ps with
    | .error e => .error e
    | .ok acc =>
      .ok { writes := acc.composeWrites ++
              [(pyJoin2 compiledPath "init.sh",
                String.intercalate "\n" acc.initScript),
               (pyJoin2 compiledPath "combined.env",
                String.intercalate "\n" acc.envOutput)],
            composeFiles := acc.composeFiles }

/-! Specification-side definitions, used to state the claims against the
embedding above. -/

/-- The result of stripping and template-substituting one env-template
line (the error value is never used on a successful run). -/
def envLineFmt (cfg : String → Option String) (l : String) : String :=
  match pyFormat (pyStripWs l) cfg with
  | .ok s => s
  | .error _ => ""

/-- Per-profile contribution to `combined.env`, as the specification
describes it: if `<profile>/pulp_config.env` exists, each of its lines,
stripped and template-substituted, in order. -/
def envContribution (fileContents : String → Option String)
    (cfg : String → Option String) (p : Profile) : List String :=
  match fileContents (pyJoin2 p.path "pulp_config.env") with
  | none => []
  | some content => (pyLines content).map (envLineFmt cfg)

/-- The first formatting failure among the lines of an env template
file. -/
def firstLineFailure (cfg : String → Option String) (file : String) :
    List String → Option RunError
  | [] => none
  | l :: ls =>
    match pyFormat (pyStripWs l) cfg with
    | .ok _ => firstLineFailure cfg file ls
    | .error (.keyError k) => some (.templateVar file k)
    | .error .valueError => some (.formatError file)

/-- The formatting failure of a profile's `pulp_config.env`, if any. -/
def envFileFailure (fileContents : String → Option String)
    (cfg : String → Option String) (p : Profile) : Option RunError :=
  match fileContents (pyJoin2 p.path "pulp_config.env") with
  | none => none
  | some content =>
    firstLineFailure cfg (pyJoin2 p.path "pulp_config.env")
      (pyLines content)

/-- The formatting failure of a profile's `compose.yaml`, if any. -/
def composeFileFailure (fileContents : String → Option String)
    (cfg : String → Option String) (p : Profile) : Option RunError :=
  match fileContents (pyJoin2 p.path "compose.yaml") with
  | none => none
  | some data =>
    match pyFormat data cfg with
    | .ok _ => none
    | .error (.keyError k) =>
      some (.templateVar (pyJoin2 p.path "compose.yaml") k)
    | .error .valueError =>
      some (.formatError (pyJoin2 p.path "compose.yaml"))

/-- The first template-formatting failure over the profiles in resolution
order (env file before compose file within each profile, matching the
order the code processes them). -/
def firstTemplateFailure (fileContents : String → Option String)
    (cfg : String → Option String) : List Profile → Option RunError
  | [] => none
  | p :: ps =>
    match envFileFailure fileContents cfg p with
    | some e => some e
    | none =>
      match composeFileFailure fileContents cfg p with
      | some e => some e
      | none => firstTemplateFailure fileContents cfg ps

/-- The first `COMPOSE_PROFILE` token whose resolved directory does not
exist, together with that attempted path. -/
def firstMissingProfile (cwd path ociDir : String) (isdir : String → Bool) :
    List String → Option (String × String)
  | [] => none
  | t :: ts =>
    let r := resolveToken cwd path ociDir t
    if isdir r.2.2 then firstMissingProfile cwd path ociDir isdir ts
    else some (t, r.2.2)

/-- Every file path a compilation run reads (or tests) under the resolved
profile directories. -/
def readPaths (ps : List Profile) : List String :=
  ps.flatMap (fun p =>
    [pyJoin2 p.path "init.sh", pyJoin2 p.path "pulp_config.env",
     pyJoin2 p.path "compose.yaml"])

/-- Overwrites one file in an abstract file-contents map. -/
def applyWrite (g : String → Option String) (w : String × String) :
    String → Option String :=
  fun q => if q = w.1 then some w.2 else g q

/-- Applies a run's writes, in order, to a file-contents map (each write
truncates and overwrites its target). -/
def applyWrites (g : String → Option String)
    (ws : List (String × String)) : String → Option String :=
  ws.foldl applyWrite g

/-- The filesystem as seen after a run's writes land (directories are
unchanged; the written files now exist with the written contents). -/
def FS.afterRun (fs : FS) (ws : List (String × String)) : FS :=
  ⟨fs.isdir, applyWrites fs.fileContents ws⟩

/-- The per-line rule of `read_env_file` as the specification words it: a
line contributes a pair exactly when it does not start with `#` and
contains at least one `=`; the text before the first `=` is the key and
the text after it is the value, each stripped of its surrounding strip
set. -/
def envLineSpec (line : String) : Option (String × String) :=
  if strStartsWithChar line '#' = false ∧ hasChar '=' line.data then
    some (pyStripChars stripKeyChars
            ⟨line.data.takeWhile (fun x => !(x == '='))⟩,
          pyStripChars stripValChars
            ⟨(line.data.dropWhile (fun x => !(x == '='))).drop 1⟩)
  else none

/-! Concrete run inputs used by the witnesses and counterexamples below.
The run root is `/r/oci` (so the computed directory name is `oci`) and
the working directory is `/cwd`. -/

/-- A filesystem with no directories and no files. -/
def fsNone : FS := ⟨fun _ => false, fun _ => none⟩

/-- A filesystem where only the directory resolved from the default empty
profile token exists, with no readable files. -/
def fsProfilesDir : FS := ⟨fun q => q == "/r/oci/profiles/", fun _ => none⟩

/-- Same directories as `fsProfilesDir`, plus a base `pulp_config.env`
template containing one line `HOST={API_HOST}`. -/
def fsEnvHost : FS :=
  ⟨fun q => q == "/r/oci/profiles/",
   fun q => if q == "/r/oci/base/pulp_config.env"
            then some "HOST={API_HOST}\n" else none⟩

/-- Same directories as `fsProfilesDir`, plus a base `compose.yaml`
template referencing an undefined configuration key. -/
def fsComposeUndef : FS :=
  ⟨fun q => q == "/r/oci/profiles/",
   fun q => if q == "/r/oci/base/compose.yaml"
            then some "services: {UNDEFINED_KEY}\n" else none⟩

/-- A filesystem where only the local profile directory `a` exists (for
the profile list `a:b/c`). -/
def fsProfileA : FS := ⟨fun q => q == "/r/oci/profiles/a", fun _ => none⟩

/-- A filesystem where only `/r/oci/.compiled` exists as a directory (the
target of the aliasing profile token in the idempotence counterexample). -/
def fsAliasCompiled : FS := ⟨fun q => q == "/r/oci/.compiled", fun _ => none⟩

/-- A filesystem where only the directory `/b` exists (the resolved
source directory of the degenerate token `a//b`). -/
def fsSlashB : FS := ⟨fun q => q == "/b", fun _ => none⟩

/-- The configuration of a run from `/r/oci` with an empty
`.compose.env`: all defaults, `COMPOSE_PROFILE` empty. -/
def cfgDefault : String → Option String :=
  cfgLookup (resolved_config "/r/oci" "")

/-- The configuration with the user override `COMPOSE_PROFILE=a:b/c`. -/
def cfgAB : String → Option String :=
  cfgLookup (resolved_config "/r/oci" "COMPOSE_PROFILE=a:b/c\n")

/-- The configuration with the user override
`COMPOSE_PROFILE=p/../../oci/.compiled`, whose single token resolves into
the run's own output directory. -/
def cfgAlias : String → Option String :=
  cfgLookup (resolved_config "/r/oci" "COMPOSE_PROFILE=p/../../oci/.compiled\n")

/-- The configuration with the user override `COMPOSE_PROFILE=a//b`,
whose token has an empty-after-slash remainder beginning with `/`. -/
def cfgSlashSlash : String → Option String :=
  cfgLookup (resolved_config "/r/oci" "COMPOSE_PROFILE=a//b\n")

/-- The profile sequence resolved from root `/r/oci` with the default
empty profile list (on any filesystem where `/r/oci/profiles/` exists). -/
def psHost : List Profile :=
  [⟨"/r/oci/base", "base", "/src/oci/base"⟩,
   ⟨"/r/oci/profiles/", "", "/src/oci/profiles/"⟩]

/-- The `.compiled/init.sh` contents when no profile has an init script:
the newline-joined initial banner. -/
def bannerText : String :=
  "#!/bin/bash\n\n# AUTOGENERATED by oci-env\n# This script runs automatically when the container starts.\n"

/-- The compilation result of the `fsEnvHost` run: no compose files, the
banner init script, and `HOST=localhost` in `combined.env`. -/
def resHost : CompileResult :=
  ⟨[("/r/oci/.compiled/init.sh", bannerText),
    ("/r/oci/.compiled/combined.env", "HOST=localhost")], []⟩

/-- The first run of the aliasing configuration: the second profile's
directory is `.compiled` itself, which holds no files yet. -/
def resAlias : CompileResult :=
  ⟨[("/r/oci/.compiled/init.sh", bannerText),
    ("/r/oci/.compiled/combined.env", "")], []⟩

/-- The second run of the aliasing configuration: the `init.sh` written by
the first run is now found inside the profile directory, so an extra
`bash` line is appended to the regenerated init script. -/
def resAlias2 : CompileResult :=
  ⟨[("/r/oci/.compiled/init.sh",
     bannerText ++ "\nbash /src/p/profiles/../../oci/.compiled/init.sh"),
    ("/r/oci/.compiled/combined.env", "")], []⟩

/-! Supporting lemmas. -/

/-- Splitting at the first separator agrees with the take/drop
description: the key is everything before the first separator, the value
everything after it. -/
theorem splitFirstAux_eq (c : Char) : ∀ l : List Char,
    splitFirstAux c l =
      (l.takeWhile (fun x => !(x == c)),
       (l.dropWhile (fun x => !(x == c))).drop 1) := by
  intro l
  induction l with
  | nil => simp [splitFirstAux]
  | cons x xs ih =>
    cases hx : x == c <;>
      simp [splitFirstAux, hx, List.takeWhile_cons, List.dropWhile_cons, ih]

/-- One `read_env_file` loop step appends exactly the pair described by
`envLineSpec` (if any). -/
theorem envFileStep_eq (acc : List (String × String)) (line : String) :
    envFileStep acc line = acc ++ (envLineSpec line).toList := by
  by_cases h : strStartsWithChar line '#' = false ∧ hasChar '=' line.data
  · simp [envFileStep, envLineSpec, h, pySplit1, splitFirstAux_eq]
  · simp [envFileStep, envLineSpec, h]

/-- The `read_env_file` fold collects the `envLineSpec` entries of all
lines, in order. -/
theorem foldl_envFileStep : ∀ (lines : List String)
    (acc : List (String × String)),
    lines.foldl envFileStep acc = acc ++ lines.filterMap envLineSpec := by
  intro lines
  induction lines with
  | nil => simp
  | cons l ls ih =>
    intro acc
    simp only [List.foldl_cons, ih, envFileStep_eq, List.filterMap_cons]
    cases envLineSpec l <;> simp

/-- A successful resolution loop only ever extends its accumulator. -/
theorem resolveTokensLoop_extends (cwd path ociDir : String)
    (isdir : String → Bool) : ∀ (ts : List String) (acc l : List Profile),
    resolveTokensLoop cwd path ociDir isdir acc ts = .ok l →
    ∃ s, l = acc ++ s := by
  intro ts
  induction ts with
  | nil =>
    intro acc l h
    simp only [resolveTokensLoop] at h
    cases h
    exact ⟨[], by simp⟩
  | cons t ts ih =>
    intro acc l h
    simp only [resolveTokensLoop] at h
    split at h
    · obtain ⟨s, hs⟩ := ih _ _ h
      refine ⟨[{ path := (resolveToken cwd path ociDir t).2.2, name := t,
                 container_path := mkContainerPath
                   (resolveToken cwd path ociDir t).1
                   (resolveToken cwd path ociDir t).2.1 }] ++ s, ?_⟩
      rw [hs, List.append_assoc]
    · cases h

/-! Claim theorems. -/

/-- C4: for every configured profile-list value, the sequence returned by
profile resolution has the synthetic base descriptor (source directory
`<run-root>/base`, container path `/src/<own-dir-name>/base`, both built
by `baseProfile`) present and in first position. -/
theorem c4_base_profile_first (cwd path : String) (fs : FS)
    (cfg : String → Option String) (l : List Profile)
    (h : resolve_profile_paths cwd path fs cfg = .ok l) :
    l.head? = some (baseProfile path ((cfg "OCI_ENV_DIRECTORY").getD "")) := by
  obtain ⟨s, hs⟩ := resolveTokensLoop_extends _ _ _ _ _ _ _ h
  simp [hs]

/-- Witness for C4 at a concrete run: root `/r/oci`, empty profile list,
the empty token's directory existing. -/
theorem c4_base_profile_first_witness :
    resolve_profile_paths "/cwd" "/r/oci" fsProfilesDir cfgDefault =
      .ok [⟨"/r/oci/base", "base", "/src/oci/base"⟩,
           ⟨"/r/oci/profiles/", "", "/src/oci/profiles/"⟩] ∧
    ([⟨"/r/oci/base", "base", "/src/oci/base"⟩,
      ⟨"/r/oci/profiles/", "", "/src/oci/profiles/"⟩] : List Profile).head? =
      some (baseProfile "/r/oci" ((cfgDefault "OCI_ENV_DIRECTORY").getD "")) :=
  ⟨by decide, c4_base_profile_first "/cwd" "/r/oci" fsProfilesDir cfgDefault _
    (by decide)⟩

/-- C5: in the resolved configuration mapping the value of every key is
determined with increasing precedence defaults → user override file →
computed constants; the two computed constants (`OCI_ENV_DIRECTORY`, the
last path segment of the base directory, and `COMPOSE_CONTEXT`, the base
directory itself) always win over both defaults and user overrides, and
every other key takes its user override when one exists, its default
otherwise. -/
theorem c5_config_precedence (path content k : String)
    (h1 : k ≠ "OCI_ENV_DIRECTORY") (h2 : k ≠ "COMPOSE_CONTEXT") :
    cfgLookup (resolved_config path content) "OCI_ENV_DIRECTORY" =
      some (ociDirOf path) ∧
    cfgLookup (resolved_config path content) "COMPOSE_CONTEXT" = some path ∧
    cfgLookup (resolved_config path content) k =
      (match cfgLookup (read_env_file content) k with
       | some v => some v
       | none => cfgLookup (default_config path) k) := by
  have e4 : (("COMPOSE_CONTEXT" : String) == k) = false :=
    beq_eq_false_iff_ne.mpr (Ne.symm h2)
  have e5 : (("OCI_ENV_DIRECTORY" : String) == k) = false :=
    beq_eq_false_iff_ne.mpr (Ne.symm h1)
  refine ⟨?_, ?_, ?_⟩
  · simp [cfgLookup, resolved_config, constant_vals, List.find?_append,
      List.find?]
  · simp [cfgLookup, resolved_config, constant_vals, List.find?_append,
      List.find?]
  · simp only [cfgLookup, resolved_config, List.reverse_append,
      List.find?_append, constant_vals, List.reverse_cons, List.reverse_nil,
      List.nil_append, List.cons_append, List.find?_cons, e4, e5]
    cases hu : (read_env_file content).reverse.find? (fun e => e.1 == k) <;>
      simp [hu, Option.or]

/-- Witness for C5 at a concrete run: root `/r/oci`, override file
`API_PORT=8080`, probe key `API_HOST`. -/
theorem c5_config_precedence_witness :
    (("API_HOST" : String) ≠ "OCI_ENV_DIRECTORY") ∧
    (("API_HOST" : String) ≠ "COMPOSE_CONTEXT") ∧
    (cfgLookup (resolved_config "/r/oci" "API_PORT=8080\n")
        "OCI_ENV_DIRECTORY" = some (ociDirOf "/r/oci") ∧
     cfgLookup (resolved_config "/r/oci" "API_PORT=8080\n")
        "COMPOSE_CONTEXT" = some "/r/oci" ∧
     cfgLookup (resolved_config "/r/oci" "API_PORT=8080\n") "API_HOST" =
       (match cfgLookup (read_env_file "API_PORT=8080\n") "API_HOST" with
        | some v => some v
        | none => cfgLookup (default_config "/r/oci") "API_HOST")) :=
  ⟨by decide, by decide,
   c5_config_precedence "/r/oci" "API_PORT=8080\n" "API_HOST"
     (by decide) (by decide)⟩

/-- C6 counterexample: the claim says both sides of a `KEY=VALUE` line
are stripped of surrounding whitespace, but a leading tab survives: the
line `\tA=1` contributes the key `\tA`, not `A`. -/
theorem c6_counterexample :
    read_env_file "\tA=1\n" = [("\tA", "1")] ∧ ("\tA" : String) ≠ "A" := by
  constructor <;> decide

/-- C6 (amended): for every line of the user override file, it
contributes a key/value pair exactly when it does not start with `#` and
contains at least one `=`; the first `=` splits key from value; both
sides are stripped of surrounding space, single-quote and double-quote
characters (tabs and other whitespace are kept; the value is additionally
stripped of newlines); every other line, including blank and malformed
lines, is silently ignored with no error. -/
theorem c6_env_file_lines (content : String) :
    read_env_file content = (pyLines content).filterMap envLineSpec := by
  simpa [read_env_file] using foldl_envFileStep (pyLines content) []

/-- The env-template line loop either returns the first failure or the
formatted lines in order. -/
theorem formatEnvLines_eq (cfg : String → Option String) (file : String) :
    ∀ ls : List String,
    formatEnvLines cfg file ls =
      (match firstLineFailure cfg file ls with
       | some e => .error e
       | none => .ok (ls.map (envLineFmt cfg))) := by
  intro ls
  induction ls with
  | nil => simp [formatEnvLines, firstLineFailure]
  | cons l ls ih =>
    cases hf : pyFormat (pyStripWs l) cfg with
    | ok s =>
      simp only [formatEnvLines, firstLineFailure, hf, ih]
      cases h2 : firstLineFailure cfg file ls <;> simp [envLineFmt, hf]
    | error e =>
      cases e <;> simp [formatEnvLines, firstLineFailure, hf]

/-- A compose step that succeeds leaves the env buffer unchanged. -/
theorem compileCompose_ok_env (fileContents : String → Option String)
    (cfg : String → Option String) (compiledPath : String) (acc a2 : CompAcc)
    (p : Profile)
    (h : compileCompose fileContents cfg compiledPath acc p = .ok a2) :
    a2.envOutput = acc.envOutput := by
  cases hx : fileContents (pyJoin2 p.path "compose.yaml") with
  | none =>
    simp only [compileCompose, hx, Except.ok.injEq] at h
    rw [← h]
  | some data =>
    cases hd : pyFormat data cfg with
    | ok out =>
      simp only [compileCompose, hx, hd, Except.ok.injEq] at h
      rw [← h]
    | error e2 =>
      cases e2 <;> simp [compileCompose, hx, hd] at h

/-- A compose step fails exactly with the compose-file failure. -/
theorem compileCompose_fail (fileContents : String → Option String)
    (cfg : String → Option String) (compiledPath : String) (acc : CompAcc)
    (p : Profile) (e : RunError)
    (h : composeFileFailure fileContents cfg p = some e) :
    compileCompose fileContents cfg compiledPath acc p = .error e := by
  cases hx : fileContents (pyJoin2 p.path "compose.yaml") with
  | none => simp [composeFileFailure, hx] at h
  | some data =>
    cases hd : pyFormat data cfg with
    | ok out => simp [composeFileFailure, hx, hd] at h
    | error e2 =>
      cases e2 <;> simp_all [composeFileFailure, compileCompose, hx, hd]

/-- A compose step with no compose-file failure succeeds. -/
theorem compileCompose_ok_total (fileContents : String → Option String)
    (cfg : String → Option String) (compiledPath : String) (acc : CompAcc)
    (p : Profile)
    (h : composeFileFailure fileContents cfg p = none) :
    ∃ a2, compileCompose fileContents cfg compiledPath acc p = .ok a2 := by
  cases hx : fileContents (pyJoin2 p.path "compose.yaml") with
  | none => exact ⟨acc, by simp [compileCompose, hx]⟩
  | some data =>
    cases hd : pyFormat data cfg with
    | ok out =>
      refine ⟨{ acc with
        composeWrites := acc.composeWrites ++
          [(pyJoin2 compiledPath (sanitizeName p.name ++ "_compose.yaml"),
            out)],
        composeFiles := acc.composeFiles ++
          [pyJoin2 compiledPath (sanitizeName p.name ++ "_compose.yaml")] },
        ?_⟩
      simp [compileCompose, hx, hd]
    | error e2 => cases e2 <;> simp [composeFileFailure, hx, hd] at h

/-- A successful compilation step extends the env buffer by exactly the
profile's `envContribution`. -/
theorem compileStep_ok_env (fileContents : String → Option String)
    (cfg : String → Option String) (compiledPath : String) (acc a2 : CompAcc)
    (p : Profile)
    (h : compileStep fileContents cfg compiledPath acc p = .ok a2) :
    a2.envOutput = acc.envOutput ++ envContribution fileContents cfg p := by
  cases hf : fileContents (pyJoin2 p.path "pulp_config.env") with
  | none =>
    simp only [compileStep, hf] at h
    have h2 := compileCompose_ok_env _ _ _ _ _ _ h
    simp only [envContribution, hf, List.append_nil]
    rw [h2]
    split <;> rfl
  | some content =>
    cases hl : firstLineFailure cfg (pyJoin2 p.path "pulp_config.env")
        (pyLines content) with
    | some e => simp [compileStep, hf, formatEnvLines_eq, hl] at h
    | none =>
      simp only [compileStep, hf, formatEnvLines_eq, hl] at h
      have h2 := compileCompose_ok_env _ _ _ _ _ _ h
      simp only [envContribution, hf]
      rw [h2]
      split <;> simp

/-- A compilation step whose profile has a template failure returns the
first such failure (env file before compose file). -/
theorem compileStep_fail (fileContents : String → Option String)
    (cfg : String → Option String) (compiledPath : String) (acc : CompAcc)
    (p : Profile) (e : RunError)
    (h : (match envFileFailure fileContents cfg p with
          | some e2 => some e2
          | none => composeFileFailure fileContents cfg p) = some e) :
    compileStep fileContents cfg compiledPath acc p = .error e := by
  cases hf : fileContents (pyJoin2 p.path "pulp_config.env") with
  | none =>
    simp only [envFileFailure, hf] at h
    simp only [compileStep, hf]
    exact compileCompose_fail _ _ _ _ _ _ h
  | some content =>
    cases hl : firstLineFailure cfg (pyJoin2 p.path "pulp_config.env")
        (pyLines content) with
    | some e2 =>
      simp only [envFileFailure, hf, hl] at h
      cases h
      simp [compileStep, hf, formatEnvLines_eq, hl]
    | none =>
      simp only [envFileFailure, hf, hl] at h
      simp only [compileStep, hf, formatEnvLines_eq, hl]
      exact compileCompose_fail _ _ _ _ _ _ h

/-- A compilation step with no template failure succeeds. -/
theorem compileStep_ok_total (fileContents : String → Option String)
    (cfg : String → Option String) (compiledPath : String) (acc : CompAcc)
    (p : Profile)
    (h1 : envFileFailure fileContents cfg p = none)
    (h2 : composeFileFailure fileContents cfg p = none) :
    ∃ a2, compileStep fileContents cfg compiledPath acc p = .ok a2 := by
  cases hf : fileContents (pyJoin2 p.path "pulp_config.env") with
  | none =>
    simp only [compileStep, hf]
    exact compileCompose_ok_total _ _ _ _ _ h2
  | some content =>
    cases hl : firstLineFailure cfg (pyJoin2 p.path "pulp_config.env")
        (pyLines content) with
    | some e2 => simp [envFileFailure, hf, hl] at h1
    | none =>
      simp only [compileStep, hf, formatEnvLines_eq, hl]
      exact compileCompose_ok_total _ _ _ _ _ h2

/-- A successful compilation run accumulates the `envContribution` of all
profiles, in order, after the initial buffer. -/
theorem compileProfiles_ok_env (fileContents : String → Option String)
    (cfg : String → Option String) (compiledPath : String) :
    ∀ (ps : List Profile) (acc a2 : CompAcc),
    compileProfiles fileContents cfg compiledPath acc ps = .ok a2 →
    a2.envOutput = acc.envOutput ++
      ps.flatMap (envContribution fileContents cfg) := by
  intro ps
  induction ps with
  | nil =>
    intro acc a2 h
    simp only [compileProfiles, Except.ok.injEq] at h
    rw [← h]
    simp
  | cons p ps ih =>
    intro acc a2 h
    cases hs : compileStep fileContents cfg compiledPath acc p with
    | error e => simp [compileProfiles, hs] at h
    | ok acc2 =>
      simp only [compileProfiles, hs] at h
      have hh1 := compileStep_ok_env _ _ _ _ _ _ hs
      have hh2 := ih _ _ h
      rw [hh2, hh1, List.flatMap_cons, List.append_assoc]

/-- A compilation run with a template failure fails with the first one,
regardless of the accumulated state and of the profiles after it. -/
theorem compileProfiles_fail (fileContents : String → Option String)
    (cfg : String → Option String) (compiledPath : String) :
    ∀ (ps : List Profile) (e : RunError),
    firstTemplateFailure fileContents cfg ps = some e →
    ∀ acc : CompAcc,
    compileProfiles fileContents cfg compiledPath acc ps = .error e := by
  intro ps
  induction ps with
  | nil => intro e h; cases h
  | cons p ps ih =>
    intro e h acc
    cases he : envFileFailure fileContents cfg p with
    | some e2 =>
      simp only [firstTemplateFailure, he] at h
      cases h
      simp [compileProfiles,
        compileStep_fail fileContents cfg compiledPath acc p e
          (by simp [he])]
    | none =>
      cases hc : composeFileFailure fileContents cfg p with
      | some e2 =>
        simp only [firstTemplateFailure, he, hc] at h
        cases h
        simp [compileProfiles,
          compileStep_fail fileContents cfg compiledPath acc p e
            (by simp [he, hc])]
      | none =>
        simp only [firstTemplateFailure, he, hc] at h
        obtain ⟨a2, ha⟩ := compileStep_ok_total fileContents cfg
          compiledPath acc p he hc
        simp only [compileProfiles, ha]
        exact ih e h a2

/-- C1: for every profile descriptor in resolution order whose directory
contains a `pulp_config.env` file, compilation reads it line by line,
strips and template-substitutes each line against the configuration
mapping (`envContribution`), appends the results to one shared buffer,
and the last write of the run stores that buffer, newline-joined, in
`.compiled/combined.env`. -/
theorem c1_combined_env (cwd path : String) (fs : FS)
    (cfg : String → Option String) (ps : List Profile) (r : CompileResult)
    (h1 : resolve_profile_paths cwd path fs cfg = .ok ps)
    (h2 : parse_profiles cwd path fs cfg = .ok r) :
    r.writes.getLast? =
      some (pyJoin2 (pyJoin2 path ".compiled") "combined.env",
        String.intercalate "\n"
          (ps.flatMap (envContribution fs.fileContents cfg))) := by
  cases hc : compileProfiles fs.fileContents cfg (pyJoin2 path ".compiled")
      initAcc ps with
  | error e => simp [parse_profiles, h1, hc] at h2
  | ok acc =>
    simp only [parse_profiles, h1, hc, Except.ok.injEq] at h2
    have henv := compileProfiles_ok_env _ _ _ _ _ _ hc
    simp only [initAcc] at henv
    rw [← h2]
    simp only [henv]
    rw [List.getLast?_append_of_ne_nil]
    · simp
    · simp

/-- Witness for C1 at the spec's own example: a base `pulp_config.env`
line `HOST={API_HOST}` with the default mapping (`API_HOST=localhost`)
makes the final write `HOST=localhost` into `.compiled/combined.env`. -/
theorem c1_combined_env_witness :
    resolve_profile_paths "/cwd" "/r/oci" fsEnvHost cfgDefault = .ok psHost ∧
    parse_profiles "/cwd" "/r/oci" fsEnvHost cfgDefault = .ok resHost ∧
    resHost.writes.getLast? =
      some (pyJoin2 (pyJoin2 "/r/oci" ".compiled") "combined.env",
        String.intercalate "\n"
          (psHost.flatMap (envContribution fsEnvHost.fileContents cfgDefault))) ∧
    String.intercalate "\n"
      (psHost.flatMap (envContribution fsEnvHost.fileContents cfgDefault)) =
      "HOST=localhost" :=
  ⟨by decide, by decide,
   c1_combined_env "/cwd" "/r/oci" fsEnvHost cfgDefault psHost resHost
     (by decide) (by decide),
   by decide⟩

/-- C2: whenever some template file of a resolved profile (a
`pulp_config.env` line or a whole `compose.yaml`) references a
configuration key absent from the mapping, compilation terminates
immediately at the first such failure — independently of everything that
comes after it — with the error naming that file and that variable, and
the run exits with a non-zero status. -/
theorem c2_template_variable_error (cwd path : String) (fs : FS)
    (cfg : String → Option String) (ps : List Profile) (f k : String)
    (h1 : resolve_profile_paths cwd path fs cfg = .ok ps)
    (h2 : firstTemplateFailure fs.fileContents cfg ps =
      some (.templateVar f k)) :
    parse_profiles cwd path fs cfg = .error (.templateVar f k) ∧
    runExitCode (parse_profiles cwd path fs cfg) ≠ 0 := by
  have hp : parse_profiles cwd path fs cfg = .error (.templateVar f k) := by
    have hx := compileProfiles_fail fs.fileContents cfg
      (pyJoin2 path ".compiled") ps (.templateVar f k) h2 initAcc
    simp [parse_profiles, h1, hx]
  exact ⟨hp, by rw [hp]; simp [runExitCode]⟩

/-- Witness for C2 at the spec's own example: a base `compose.yaml`
referencing `{UNDEFINED_KEY}`, absent from the default mapping, aborts the
run with the error naming that file and key. -/
theorem c2_template_variable_error_witness :
    resolve_profile_paths "/cwd" "/r/oci" fsComposeUndef cfgDefault =
      .ok psHost ∧
    firstTemplateFailure fsComposeUndef.fileContents cfgDefault psHost =
      some (.templateVar "/r/oci/base/compose.yaml" "UNDEFINED_KEY") ∧
    (parse_profiles "/cwd" "/r/oci" fsComposeUndef cfgDefault =
      .error (.templateVar "/r/oci/base/compose.yaml" "UNDEFINED_KEY") ∧
     runExitCode (parse_profiles "/cwd" "/r/oci" fsComposeUndef cfgDefault)
       ≠ 0) :=
  ⟨by decide, by decide,
   c2_template_variable_error "/cwd" "/r/oci" fsComposeUndef cfgDefault
     psHost "/r/oci/base/compose.yaml" "UNDEFINED_KEY"
     (by decide) (by decide)⟩

/-- The resolution loop fails on the first token whose directory is
missing, regardless of the accumulated descriptors and of the tokens
after it. -/
theorem resolveTokensLoop_fail (cwd path ociDir : String)
    (isdir : String → Bool) : ∀ (ts : List String) (t pp : String),
    firstMissingProfile cwd path ociDir isdir ts = some (t, pp) →
    ∀ acc : List Profile,
    resolveTokensLoop cwd path ociDir isdir acc ts =
      .error (.profileNotFound t pp) := by
  intro ts
  induction ts with
  | nil => intro t pp h; cases h
  | cons t0 ts ih =>
    intro t pp h acc
    cases hd : isdir (resolveToken cwd path ociDir t0).2.2 with
    | true =>
      simp only [firstMissingProfile, hd, if_true] at h
      simp only [resolveTokensLoop, hd, if_true]
      exact ih t pp h _
    | false =>
      simp only [firstMissingProfile, hd, if_false] at h
      cases h
      simp [resolveTokensLoop, hd]

/-- C7: for every profile token whose resolved source directory does not
exist on disk, profile resolution fails with an error naming the profile
reference and the attempted path, and the run terminates with a non-zero
status. -/
theorem c7_profile_not_found (cwd path : String) (fs : FS)
    (cfg : String → Option String) (t pp : String)
    (h : firstMissingProfile cwd path ((cfg "OCI_ENV_DIRECTORY").getD "")
      fs.isdir (pySplit ':' ((cfg "COMPOSE_PROFILE").getD "")) =
      some (t, pp)) :
    resolve_profile_paths cwd path fs cfg =
      .error (.profileNotFound t pp) ∧
    parse_profiles cwd path fs cfg = .error (.profileNotFound t pp) ∧
    runExitCode (parse_profiles cwd path fs cfg) ≠ 0 := by
  have hr : resolve_profile_paths cwd path fs cfg =
      .error (.profileNotFound t pp) :=
    resolveTokensLoop_fail _ _ _ _ _ _ _ h _
  have hp : parse_profiles cwd path fs cfg =
      .error (.profileNotFound t pp) := by
    simp [parse_profiles, hr]
  exact ⟨hr, hp, by rw [hp]; simp [runExitCode]⟩

/-- Witness for C7 at the spec's own example: profile list `a:b/c` where
`a` exists but the sibling `b/profiles/c` does not; resolution fails
naming `b/c` and the attempted absolute path. -/
theorem c7_profile_not_found_witness :
    firstMissingProfile "/cwd" "/r/oci"
      ((cfgAB "OCI_ENV_DIRECTORY").getD "") fsProfileA.isdir
      (pySplit ':' ((cfgAB "COMPOSE_PROFILE").getD "")) =
      some ("b/c", "/r/b/profiles/c") ∧
    (resolve_profile_paths "/cwd" "/r/oci" fsProfileA cfgAB =
      .error (.profileNotFound "b/c" "/r/b/profiles/c") ∧
     parse_profiles "/cwd" "/r/oci" fsProfileA cfgAB =
      .error (.profileNotFound "b/c" "/r/b/profiles/c") ∧
     runExitCode (parse_profiles "/cwd" "/r/oci" fsProfileA cfgAB) ≠ 0) :=
  ⟨by decide,
   c7_profile_not_found "/cwd" "/r/oci" fsProfileA cfgAB
     "b/c" "/r/b/profiles/c" (by decide)⟩

/-- Looking a path up after a run's writes returns the last write to that
path, or falls back to the previous contents. -/
theorem applyWrites_lookup : ∀ (ws : List (String × String))
    (g : String → Option String) (q : String),
    applyWrites g ws q =
      (match ws.reverse.find? (fun w => w.1 == q) with
       | some w => some w.2
       | none => g q) := by
  intro ws
  induction ws with
  | nil => intro g q; simp [applyWrites]
  | cons w ws ih =>
    intro g q
    simp only [applyWrites, List.foldl_cons] at ih ⊢
    rw [ih (applyWrite g w) q]
    simp only [List.reverse_cons, List.find?_append]
    cases hf : ws.reverse.find? (fun w2 => w2.1 == q) with
    | some w2 => simp [Option.or]
    | none =>
      simp only [Option.none_or]
      cases hw : w.1 == q with
      | true =>
        have hq : q = w.1 := (eq_of_beq hw).symm
        simp [List.find?, hw, applyWrite, hq]
      | false =>
        have hq : ¬ q = w.1 := fun hh => by
          rw [hh] at hw
          simp at hw
        simp [List.find?, hw, applyWrite, hq]

/-- Applying the same write list twice yields the same contents as
applying it once. -/
theorem applyWrites_idem (g : String → Option String)
    (ws : List (String × String)) :
    applyWrites (applyWrites g ws) ws = applyWrites g ws := by
  funext q
  rw [applyWrites_lookup, applyWrites_lookup]
  cases hf : ws.reverse.find? (fun w => w.1 == q) <;> rfl

/-- The compose step only reads the profile's `compose.yaml`. -/
theorem compileCompose_congr (f g : String → Option String)
    (cfg : String → Option String) (compiledPath : String) (acc : CompAcc)
    (p : Profile)
    (h : f (pyJoin2 p.path "compose.yaml") = g (pyJoin2 p.path "compose.yaml")) :
    compileCompose f cfg compiledPath acc p =
      compileCompose g cfg compiledPath acc p := by
  simp only [compileCompose, h]

/-- A compilation step only reads the profile's three candidate files. -/
theorem compileStep_congr (f g : String → Option String)
    (cfg : String → Option String) (compiledPath : String) (acc : CompAcc)
    (p : Profile)
    (h1 : f (pyJoin2 p.path "init.sh") = g (pyJoin2 p.path "init.sh"))
    (h2 : f (pyJoin2 p.path "pulp_config.env") =
      g (pyJoin2 p.path "pulp_config.env"))
    (h3 : f (pyJoin2 p.path "compose.yaml") =
      g (pyJoin2 p.path "compose.yaml")) :
    compileStep f cfg compiledPath acc p =
      compileStep g cfg compiledPath acc p := by
  cases hv : g (pyJoin2 p.path "pulp_config.env") with
  | none =>
    simp only [compileStep, h1, h2, hv]
    exact compileCompose_congr f g cfg compiledPath _ p h3
  | some content =>
    cases he : formatEnvLines cfg (pyJoin2 p.path "pulp_config.env")
        (pyLines content) with
    | error e => simp only [compileStep, h1, h2, hv, he]
    | ok outs =>
      simp only [compileStep, h1, h2, hv, he]
      exact compileCompose_congr f g cfg compiledPath _ p h3

/-- The compilation loop only reads the `readPaths` of its profiles. -/
theorem compileProfiles_congr (f g : String → Option String)
    (cfg : String → Option String) (compiledPath : String) :
    ∀ ps : List Profile, (∀ q ∈ readPaths ps, f q = g q) →
    ∀ acc : CompAcc,
    compileProfiles f cfg compiledPath acc ps =
      compileProfiles g cfg compiledPath acc ps := by
  intro ps
  induction ps with
  | nil => intro h acc; rfl
  | cons p ps ih =>
    intro h acc
    have h1 := h (pyJoin2 p.path "init.sh") (by simp [readPaths])
    have h2 := h (pyJoin2 p.path "pulp_config.env") (by simp [readPaths])
    have h3 := h (pyJoin2 p.path "compose.yaml") (by simp [readPaths])
    have hrest : ∀ q ∈ readPaths ps, f q = g q := fun q hq =>
      h q (by
        simp only [readPaths, List.flatMap_cons]
        exact List.mem_append_right _ (by simpa [readPaths] using hq))
    simp only [compileProfiles,
      compileStep_congr f g cfg compiledPath acc p h1 h2 h3]
    cases compileStep g cfg compiledPath acc p with
    | error e => rfl
    | ok acc2 => exact ih hrest acc2

/-- C8 counterexample: compilation is not idempotent as claimed when a
profile token resolves into `.compiled/` itself.  With
`COMPOSE_PROFILE=p/../../oci/.compiled` from root `/r/oci`, the first run
writes `.compiled/init.sh`; the second run, on otherwise unchanged
inputs, sees that file inside its profile directory and regenerates
`.compiled/init.sh` with an extra `bash` line, so the `.compiled/`
contents after the two runs differ. -/
theorem c8_counterexample :
    parse_profiles "/cwd" "/r/oci" fsAliasCompiled cfgAlias =
      .ok resAlias ∧
    parse_profiles "/cwd" "/r/oci" (fsAliasCompiled.afterRun resAlias.writes)
      cfgAlias = .ok resAlias2 ∧
    applyWrites (applyWrites (fun _ => none) resAlias.writes)
        resAlias2.writes "/r/oci/.compiled/init.sh" ≠
      applyWrites (fun _ => none) resAlias.writes
        "/r/oci/.compiled/init.sh" :=
  ⟨by decide, by decide, by decide⟩

/-- C8 (amended): compilation is idempotent provided the files it reads
are disjoint from the files it writes (in particular when no resolved
profile directory aliases `.compiled/`): rerunning on the filesystem left
by the first run produces the identical result — compose files named with
`/` replaced by `_`, `init.sh`, `combined.env` — and applying the writes
a second time leaves the `.compiled/` contents byte-identical. -/
theorem c8_idempotent (cwd path : String) (fs : FS)
    (cfg : String → Option String) (ps : List Profile) (r : CompileResult)
    (S : String → Option String)
    (h1 : resolve_profile_paths cwd path fs cfg = .ok ps)
    (h2 : parse_profiles cwd path fs cfg = .ok r)
    (h3 : ∀ q ∈ readPaths ps,
      applyWrites fs.fileContents r.writes q = fs.fileContents q) :
    parse_profiles cwd path (fs.afterRun r.writes) cfg = .ok r ∧
    applyWrites (applyWrites S r.writes) r.writes =
      applyWrites S r.writes := by
  constructor
  · have hagree : ∀ q ∈ readPaths ps,
        (FS.afterRun fs r.writes).fileContents q = fs.fileContents q := h3
    have hcongr := compileProfiles_congr
      (FS.afterRun fs r.writes).fileContents fs.fileContents cfg
      (pyJoin2 path ".compiled") ps hagree initAcc
    cases hc : compileProfiles fs.fileContents cfg
        (pyJoin2 path ".compiled") initAcc ps with
    | error e => simp [parse_profiles, h1, hc] at h2
    | ok acc =>
      simp only [parse_profiles, h1, hc, Except.ok.injEq] at h2
      have hres2 : resolve_profile_paths cwd path (fs.afterRun r.writes)
          cfg = .ok ps := h1
      simp only [parse_profiles, hres2, hcongr, hc, h2]
  · exact applyWrites_idem S r.writes

/-- Witness for C8 (amended) at a non-aliasing run: the `fsEnvHost` run
reads only files under `/r/oci/base` and `/r/oci/profiles/`, none of
which it writes, and its compiled output is stable. -/
theorem c8_idempotent_witness :
    resolve_profile_paths "/cwd" "/r/oci" fsEnvHost cfgDefault = .ok psHost ∧
    parse_profiles "/cwd" "/r/oci" fsEnvHost cfgDefault = .ok resHost ∧
    (∀ q ∈ readPaths psHost,
      applyWrites fsEnvHost.fileContents resHost.writes q =
        fsEnvHost.fileContents q) ∧
    (parse_profiles "/cwd" "/r/oci" (fsEnvHost.afterRun resHost.writes)
        cfgDefault = .ok resHost ∧
     applyWrites (applyWrites (fun _ => none) resHost.writes)
        resHost.writes = applyWrites (fun _ => none) resHost.writes) :=
  ⟨by decide, by decide, by decide,
   c8_idempotent "/cwd" "/r/oci" fsEnvHost cfgDefault psHost resHost
     (fun _ => none) (by decide) (by decide) (by decide)⟩

/-- A string that is not (beq-)empty has nonempty character data. -/
theorem data_ne_nil (s : String) (h : (s == "") = false) : s.data ≠ [] := by
  intro hd
  have hs : s = "" := String.ext (by rw [hd])
  rw [hs] at h
  simp at h

/-- Appending a nonempty string never yields the empty string. -/
theorem append_beq_empty (a b : String) (hb : b.data ≠ []) :
    ((a ++ b) == "") = false := by
  cases hx : (a ++ b) == "" with
  | false => rfl
  | true =>
    exfalso
    have h1 : (a ++ b) = "" := eq_of_beq hx
    have h2 : (a ++ b).data = [] := by rw [h1]
    rw [String.data_append] at h2
    simp only [List.append_eq_nil] at h2
    exact hb h2.2

/-- The last character of an append with a nonempty right part is the
right part's last character. -/
theorem strEndsWithChar_append (a b : String) (c : Char)
    (hb : b.data ≠ []) :
    strEndsWithChar (a ++ b) c = strEndsWithChar b c := by
  unfold strEndsWithChar
  rw [String.data_append, List.getLast?_append_of_ne_nil _ hb]

/-- The last character of a character list avoids any character the list
does not contain. -/
theorem getLast_hasChar_false (c : Char) : ∀ l : List Char,
    hasChar c l = false →
    (match l.getLast? with | none => false | some x => x == c) = false := by
  intro l
  induction l with
  | nil => intro h; rfl
  | cons x xs ih =>
    intro h
    simp only [hasChar, Bool.or_eq_false_iff] at h
    cases xs with
    | nil => exact h.1
    | cons y ys =>
      rw [List.getLast?_cons_cons]
      exact ih (by simpa [hasChar] using h.2)

/-- A string not containing a character does not end with it. -/
theorem strEndsWithChar_of_hasChar (s : String) (c : Char)
    (h : hasChar c s.data = false) : strEndsWithChar s c = false :=
  getLast_hasChar_false c s.data h

/-- A string not containing a character does not start with it. -/
theorem strStartsWithChar_of_hasChar (s : String) (c : Char)
    (h : hasChar c s.data = false) : strStartsWithChar s c = false := by
  unfold strStartsWithChar
  cases hd : s.data with
  | nil => rfl
  | cons x xs =>
    rw [hd] at h
    simp only [hasChar, Bool.or_eq_false_iff] at h
    exact h.1

/-- `os.path.join` inserts a separator when the left part is nonempty and
does not end with one and the right part is not absolute. -/
theorem pyJoin2_sep (a b : String) (hb : strStartsWithChar b '/' = false)
    (ha1 : (a == "") = false) (ha2 : strEndsWithChar a '/' = false) :
    pyJoin2 a b = a ++ "/" ++ b := by
  simp [pyJoin2, hb, ha1, ha2]

/-- C10: when `COMPOSE_PROFILE` is the empty string (its default),
splitting on `:` yields one empty-string token that is processed as a
real local profile named by the empty string, whose source directory is
the empty name joined onto the profiles directory (the string
`<run-root>/profiles/`); it is not treated as no-extra-profiles, so
resolution succeeds only when that directory exists, and the run
terminates with the profile-not-found error (exit status 1) otherwise. -/
theorem c10_empty_profile_token (cwd path : String) (fs : FS)
    (cfg : String → Option String) (d : String)
    (h1 : cfg "COMPOSE_PROFILE" = some "")
    (h2 : cfg "OCI_ENV_DIRECTORY" = some d)
    (h3 : (d == "") = false) (h4 : hasChar '/' d.data = false)
    (h5 : (path == "") = false) (h6 : strEndsWithChar path '/' = false) :
    resolve_profile_paths cwd path fs cfg =
      (if fs.isdir (path ++ "/profiles/")
       then .ok [baseProfile path d,
                 ⟨path ++ "/profiles/", "", "/src/" ++ d ++ "/profiles/"⟩]
       else .error (.profileNotFound "" (path ++ "/profiles/"))) ∧
    (fs.isdir (path ++ "/profiles/") = false →
      runExitCode (parse_profiles cwd path fs cfg) = 1) := by
  have hdne : d.data ≠ [] := data_ne_nil d h3
  have j1 : pyJoin2 path "profiles" = path ++ "/" ++ "profiles" :=
    pyJoin2_sep _ _ (by decide) h5 h6
  have j2 : pyJoin2 (path ++ "/" ++ "profiles") "" =
      path ++ "/" ++ "profiles" ++ "/" ++ "" := by
    refine pyJoin2_sep _ _ (by decide) (append_beq_empty _ _ (by decide)) ?_
    rw [strEndsWithChar_append (path ++ "/") "profiles" '/' (by decide)]
    decide
  have jprof : pyJoinList [path, "profiles", ""] = path ++ "/profiles/" := by
    have : pyJoinList [path, "profiles", ""] =
        pyJoin2 (pyJoin2 path "profiles") "" := rfl
    rw [this, j1, j2]
    apply String.ext
    simp only [String.data_append, List.append_assoc]
    rfl
  have c1 : pyJoin2 "/src" d = "/src" ++ "/" ++ d :=
    pyJoin2_sep _ _ (strStartsWithChar_of_hasChar d '/' h4) (by decide)
      (by decide)
  have c2 : pyJoin2 ("/src" ++ "/" ++ d) "profiles" =
      "/src" ++ "/" ++ d ++ "/" ++ "profiles" := by
    refine pyJoin2_sep _ _ (by decide) (append_beq_empty _ _ hdne) ?_
    rw [strEndsWithChar_append ("/src" ++ "/") d '/' hdne]
    exact strEndsWithChar_of_hasChar d '/' h4
  have c3 : pyJoin2 ("/src" ++ "/" ++ d ++ "/" ++ "profiles") "" =
      "/src" ++ "/" ++ d ++ "/" ++ "profiles" ++ "/" ++ "" := by
    refine pyJoin2_sep _ _ (by decide) (append_beq_empty _ _ (by decide)) ?_
    rw [strEndsWithChar_append ("/src" ++ "/" ++ d ++ "/") "profiles" '/'
      (by decide)]
    decide
  have jcont : mkContainerPath d "" = "/src/" ++ d ++ "/profiles/" := by
    have : mkContainerPath d "" =
        pyJoin2 (pyJoin2 (pyJoin2 "/src" d) "profiles") "" := rfl
    rw [this, c1, c2, c3]
    apply String.ext
    simp only [String.data_append, List.append_assoc]
    rfl
  have htok : resolveToken cwd path d "" =
      (d, "", path ++ "/profiles/") := by
    have h0 : hasChar '/' ("" : String).data = false := by decide
    simp [resolveToken, h0, jprof]
  have hsplit : pySplit ':' "" = [""] := by decide
  have hmain : resolve_profile_paths cwd path fs cfg =
      (if fs.isdir (path ++ "/profiles/")
       then .ok [baseProfile path d,
                 ⟨path ++ "/profiles/", "", "/src/" ++ d ++ "/profiles/"⟩]
       else .error (.profileNotFound "" (path ++ "/profiles/"))) := by
    simp only [resolve_profile_paths, h1, h2, Option.getD_some, hsplit]
    cases hdir : fs.isdir (path ++ "/profiles/") with
    | true =>
      simp [resolveTokensLoop, htok, hdir, jcont]
    | false =>
      simp [resolveTokensLoop, htok, hdir]
  refine ⟨hmain, fun hdir => ?_⟩
  have hres : resolve_profile_paths cwd path fs cfg =
      .error (.profileNotFound "" (path ++ "/profiles/")) := by
    rw [hmain, hdir]
    simp
  simp [parse_profiles, hres, runExitCode]

/-- Witness for C10 at a concrete run: root `/r/oci`, default (empty)
profile list, no directories at all — the run fails naming the empty
profile and `/r/oci/profiles/`. -/
theorem c10_empty_profile_token_witness :
    cfgDefault "COMPOSE_PROFILE" = some "" ∧
    cfgDefault "OCI_ENV_DIRECTORY" = some "oci" ∧
    (resolve_profile_paths "/cwd" "/r/oci" fsNone cfgDefault =
      (if fsNone.isdir ("/r/oci" ++ "/profiles/")
       then .ok [baseProfile "/r/oci" "oci",
                 ⟨"/r/oci" ++ "/profiles/", "",
                  "/src/" ++ "oci" ++ "/profiles/"⟩]
       else .error (.profileNotFound "" ("/r/oci" ++ "/profiles/"))) ∧
     (fsNone.isdir ("/r/oci" ++ "/profiles/") = false →
      runExitCode (parse_profiles "/cwd" "/r/oci" fsNone cfgDefault) = 1)) :=
  ⟨by decide, by decide,
   c10_empty_profile_token "/cwd" "/r/oci" fsNone cfgDefault "oci"
     (by decide) (by decide) (by decide) (by decide) (by decide)
     (by decide)⟩

/-- The part of a string before the first separator never contains the
separator. -/
theorem hasChar_takeWhile (c : Char) : ∀ l : List Char,
    hasChar c (l.takeWhile (fun x => !(x == c))) = false := by
  intro l
  induction l with
  | nil => rfl
  | cons x xs ih =>
    cases hx : x == c with
    | true => simp [List.takeWhile_cons, hx, hasChar]
    | false => simp [List.takeWhile_cons, hx, hasChar, ih]

/-- The plugin part produced by splitting a token at its first `/` never
contains a `/`. -/
theorem pySplit1_fst_no_sep (c : Char) (s : String) :
    hasChar c (pySplit1 c s).1.data = false := by
  simp only [pySplit1, splitFirstAux_eq]
  exact hasChar_takeWhile c s.data

/-- The container path of a well-formed plugin/name pair is the literal
`/src/<plugin>/profiles/<name>` string. -/
theorem mkContainerPath_eq (plugin name : String)
    (h1 : (plugin == "") = false) (h2 : hasChar '/' plugin.data = false)
    (h3 : strStartsWithChar name '/' = false) :
    mkContainerPath plugin name =
      "/src/" ++ plugin ++ "/profiles/" ++ name := by
  have hpne : plugin.data ≠ [] := data_ne_nil plugin h1
  have s1 : pyJoin2 "/src" plugin = "/src" ++ "/" ++ plugin :=
    pyJoin2_sep _ _ (strStartsWithChar_of_hasChar plugin '/' h2) (by decide)
      (by decide)
  have s2 : pyJoin2 ("/src" ++ "/" ++ plugin) "profiles" =
      "/src" ++ "/" ++ plugin ++ "/" ++ "profiles" := by
    refine pyJoin2_sep _ _ (by decide) (append_beq_empty _ _ hpne) ?_
    rw [strEndsWithChar_append ("/src" ++ "/") plugin '/' hpne]
    exact strEndsWithChar_of_hasChar plugin '/' h2
  have s3 : pyJoin2 ("/src" ++ "/" ++ plugin ++ "/" ++ "profiles") name =
      "/src" ++ "/" ++ plugin ++ "/" ++ "profiles" ++ "/" ++ name := by
    refine pyJoin2_sep _ _ h3 (append_beq_empty _ _ (by decide)) ?_
    rw [strEndsWithChar_append ("/src" ++ "/" ++ plugin ++ "/")
      "profiles" '/' (by decide)]
    decide
  have : mkContainerPath plugin name =
      pyJoin2 (pyJoin2 (pyJoin2 "/src" plugin) "profiles") name := rfl
  rw [this, s1, s2, s3]
  apply String.ext
  simp only [String.data_append, List.append_assoc]
  rfl

/-- The source directory of a local (no-`/`) token is the literal
`<run-root>/profiles/<token>` string. -/
theorem localProfilePath_eq (path token : String)
    (hp1 : (path == "") = false) (hp2 : strEndsWithChar path '/' = false)
    (ht : strStartsWithChar token '/' = false) :
    pyJoinList [path, "profiles", token] =
      path ++ "/profiles/" ++ token := by
  have j1 : pyJoin2 path "profiles" = path ++ "/" ++ "profiles" :=
    pyJoin2_sep _ _ (by decide) hp1 hp2
  have j2 : pyJoin2 (path ++ "/" ++ "profiles") token =
      path ++ "/" ++ "profiles" ++ "/" ++ token := by
    refine pyJoin2_sep _ _ ht (append_beq_empty _ _ (by decide)) ?_
    rw [strEndsWithChar_append (path ++ "/") "profiles" '/' (by decide)]
    decide
  have : pyJoinList [path, "profiles", token] =
      pyJoin2 (pyJoin2 path "profiles") token := rfl
  rw [this, j1, j2]
  apply String.ext
  simp only [String.data_append, List.append_assoc]
  rfl

/-- The argument `os.path.abspath` receives for a well-formed plugin
token is the literal `<run-root>/../<plugin>/profiles/<name>` string. -/
theorem pluginProfilePath_eq (path plugin name : String)
    (hp1 : (path == "") = false) (hp2 : strEndsWithChar path '/' = false)
    (h1 : (plugin == "") = false) (h2 : hasChar '/' plugin.data = false)
    (h3 : strStartsWithChar name '/' = false) :
    pyJoinList [path, "..", plugin, "profiles", name] =
      path ++ "/../" ++ plugin ++ "/profiles/" ++ name := by
  have hpne : plugin.data ≠ [] := data_ne_nil plugin h1
  have s1 : pyJoin2 path ".." = path ++ "/" ++ ".." :=
    pyJoin2_sep _ _ (by decide) hp1 hp2
  have s2 : pyJoin2 (path ++ "/" ++ "..") plugin =
      path ++ "/" ++ ".." ++ "/" ++ plugin := by
    refine pyJoin2_sep _ _ (strStartsWithChar_of_hasChar plugin '/' h2)
      (append_beq_empty _ _ (by decide)) ?_
    rw [strEndsWithChar_append (path ++ "/") ".." '/' (by decide)]
    decide
  have s3 : pyJoin2 (path ++ "/" ++ ".." ++ "/" ++ plugin) "profiles" =
      path ++ "/" ++ ".." ++ "/" ++ plugin ++ "/" ++ "profiles" := by
    refine pyJoin2_sep _ _ (by decide) (append_beq_empty _ _ hpne) ?_
    rw [strEndsWithChar_append (path ++ "/" ++ ".." ++ "/") plugin '/' hpne]
    exact strEndsWithChar_of_hasChar plugin '/' h2
  have s4 : pyJoin2 (path ++ "/" ++ ".." ++ "/" ++ plugin ++ "/" ++
      "profiles") name =
      path ++ "/" ++ ".." ++ "/" ++ plugin ++ "/" ++ "profiles" ++ "/" ++
        name := by
    refine pyJoin2_sep _ _ h3 (append_beq_empty _ _ (by decide)) ?_
    rw [strEndsWithChar_append (path ++ "/" ++ ".." ++ "/" ++ plugin ++ "/")
      "profiles" '/' (by decide)]
    decide
  have : pyJoinList [path, "..", plugin, "profiles", name] =
      pyJoin2 (pyJoin2 (pyJoin2 (pyJoin2 path "..") plugin) "profiles")
        name := rfl
  rw [this, s1, s2, s3, s4]
  apply String.ext
  simp only [String.data_append, List.append_assoc]
  rfl

/-- C3 counterexample: the claim's container-path shape fails on the
token `a//b`: the remainder after the first `/` is `/b`, and joining the
absolute component `/b` discards the `/src/a/profiles` prefix entirely,
so the descriptor's source directory and container path are both the
literal `/b` — not `/src/a/profiles//b`. -/
theorem c3_counterexample :
    resolve_profile_paths "/cwd" "/r/oci" fsSlashB cfgSlashSlash =
      .ok [⟨"/r/oci/base", "base", "/src/oci/base"⟩,
           ⟨"/b", "a//b", "/b"⟩] ∧
    pySplit1 '/' "a//b" = ("a", "/b") ∧
    ("/b" : String) ≠ "/src/" ++ "a" ++ "/profiles/" ++ "/b" :=
  ⟨by decide, by decide, by decide⟩

/-- C3 (amended): for every non-base profile token: if the token contains
`/`, the text before the first `/` is the plugin and the remainder the
profile name, and — provided the plugin part is nonempty and the name
part does not itself begin with `/` — the source directory resolves to
`abspath(<run-root>/../<plugin>/profiles/<name>)` and the
container-visible path is `/src/<plugin>/profiles/<name>`; otherwise the
whole token is the profile name, the source directory is
`<run-root>/profiles/<token>` and the container-visible path is
`/src/<own-dir-name>/profiles/<token>` (the run-root directory name being
nonempty and slash-free). -/
theorem c3_token_resolution (cwd path ociDir token : String) :
    (∀ plugin name : String,
      hasChar '/' token.data = true →
      pySplit1 '/' token = (plugin, name) →
      (plugin == "") = false →
      strStartsWithChar name '/' = false →
      (path == "") = false →
      strEndsWithChar path '/' = false →
      resolveToken cwd path ociDir token =
        (plugin, name,
         pyAbspath cwd (path ++ "/../" ++ plugin ++ "/profiles/" ++ name)) ∧
      mkContainerPath plugin name =
        "/src/" ++ plugin ++ "/profiles/" ++ name) ∧
    (hasChar '/' token.data = false →
      (ociDir == "") = false →
      hasChar '/' ociDir.data = false →
      (path == "") = false →
      strEndsWithChar path '/' = false →
      resolveToken cwd path ociDir token =
        (ociDir, token, path ++ "/profiles/" ++ token) ∧
      mkContainerPath ociDir token =
        "/src/" ++ ociDir ++ "/profiles/" ++ token) := by
  constructor
  · intro plugin name hslash hsp hplug hname hp1 hp2
    have hplugsep : hasChar '/' plugin.data = false := by
      have := pySplit1_fst_no_sep '/' token
      rw [hsp] at this
      exact this
    constructor
    · simp only [resolveToken, hslash, if_true, hsp]
      rw [pluginProfilePath_eq path plugin name hp1 hp2 hplug hplugsep hname]
    · exact mkContainerPath_eq plugin name hplug hplugsep hname
  · intro hslash hoci1 hoci2 hp1 hp2
    have htok : strStartsWithChar token '/' = false :=
      strStartsWithChar_of_hasChar token '/' hslash
    constructor
    · simp only [resolveToken, hslash]
      rw [if_neg (by simp)]
      rw [localProfilePath_eq path token hp1 hp2 htok]
    · exact mkContainerPath_eq ociDir token hoci1 hoci2 htok

/-- Witness for C3 (amended) at two concrete tokens: the plugin token
`pulp_rpm/rpm` and the local token `galaxy_ng`, resolved from root
`/r/oci`. -/
theorem c3_token_resolution_witness :
    (resolveToken "/cwd" "/r/oci" "oci" "pulp_rpm/rpm" =
      ("pulp_rpm", "rpm",
       pyAbspath "/cwd"
         ("/r/oci" ++ "/../" ++ "pulp_rpm" ++ "/profiles/" ++ "rpm")) ∧
     mkContainerPath "pulp_rpm" "rpm" =
       "/src/" ++ "pulp_rpm" ++ "/profiles/" ++ "rpm") ∧
    (resolveToken "/cwd" "/r/oci" "oci" "galaxy_ng" =
      ("oci", "galaxy_ng", "/r/oci" ++ "/profiles/" ++ "galaxy_ng") ∧
     mkContainerPath "oci" "galaxy_ng" =
       "/src/" ++ "oci" ++ "/profiles/" ++ "galaxy_ng") ∧
    pyAbspath "/cwd" ("/r/oci" ++ "/../" ++ "pulp_rpm" ++ "/profiles/" ++
      "rpm") = "/r/pulp_rpm/profiles/rpm" :=
  ⟨(c3_token_resolution "/cwd" "/r/oci" "oci" "pulp_rpm/rpm").1
     "pulp_rpm" "rpm" (by decide) (by decide) (by decide) (by decide)
     (by decide) (by decide),
   (c3_token_resolution "/cwd" "/r/oci" "oci" "galaxy_ng").2
     (by decide) (by decide) (by decide) (by decide) (by decide),
   by decide⟩

/-- A brace-free string satisfies the per-character side conditions of
the format scanner. -/
theorem braceFree_spec (t : String) (h : braceFree t = true) :
    ∀ x ∈ t.data, (x == '{') = false ∧ (x == '}') = false := by
  intro x hx
  simp only [braceFree, List.all_eq_true] at h
  have := h x hx
  simp only [Bool.and_eq_true, Bool.not_eq_true'] at this
  exact this

/-- The format scanner copies one non-brace character in literal mode. -/
theorem pyFmtGo_lit (m : String → Option String) (c : Char) (l : List Char)
    (h1 : (c == '{') = false) (h2 : (c == '}') = false) :
    pyFmtGo m (c :: l) none = exCons c (pyFmtGo m l none) := by
  rw [pyFmtGo.eq_def]
  split
  all_goals simp_all

/-- The format scanner accumulates one non-brace character of a field
name. -/
theorem pyFmtGo_acc (m : String → Option String) (c : Char)
    (l acc : List Char)
    (h1 : (c == '}') = false) (h2 : (c == '{') = false) :
    pyFmtGo m (c :: l) (some acc) = pyFmtGo m l (some (c :: acc)) := by
  rw [pyFmtGo.eq_def]
  simp [h1, h2]

/-- The format scanner opens a field on a `\x7b` not followed by another
`\x7b`. -/
theorem pyFmtGo_openField (m : String → Option String) (x : Char)
    (l : List Char) (hx : (x == '{') = false) :
    pyFmtGo m ('{' :: x :: l) none = pyFmtGo m (x :: l) (some []) := by
  rw [pyFmtGo.eq_def]
  split
  all_goals try simp_all
  all_goals
    rename_i hne1 hne2 heq
    exact absurd heq.1.symm hne1

/-- Closing a field resolves the accumulated name: all-digit names are
positional (an uncaught error here), other names are looked up in the
mapping. -/
theorem pyFmtGo_close (m : String → Option String) (acc suf : List Char) :
    pyFmtGo m ('}' :: suf) (some acc) =
      (if acc.reverse.all Char.isDigit = true then .error .valueError
       else match m ⟨acc.reverse⟩ with
         | none => .error (.keyError ⟨acc.reverse⟩)
         | some v => exPrepend v.data (pyFmtGo m suf none)) := by
  rw [pyFmtGo.eq_def]
  simp

/-- The format scanner copies a brace-free prefix verbatim. -/
theorem pyFmtGo_litPrefix (m : String → Option String) :
    ∀ l suf : List Char,
    (∀ x ∈ l, (x == '{') = false ∧ (x == '}') = false) →
    pyFmtGo m (l ++ suf) none = exPrepend l (pyFmtGo m suf none) := by
  intro l
  induction l with
  | nil =>
    intro suf h
    rw [List.nil_append]
    cases pyFmtGo m suf none <;> simp [exPrepend]
  | cons c cs ih =>
    intro suf h
    have hc := h c (by simp)
    rw [List.cons_append, pyFmtGo_lit m c (cs ++ suf) hc.1 hc.2,
      ih suf (fun x hx => h x (by simp [hx]))]
    cases pyFmtGo m suf none <;> simp [exCons, exPrepend]

/-- A field whose remaining input is brace-free never closes: the scan
runs off the end of the string and fails (Python: expected `\x7d` before
end of string). -/
theorem pyFmtGo_fieldNoClose (m : String → Option String) :
    ∀ l acc : List Char,
    (∀ x ∈ l, (x == '{') = false ∧ (x == '}') = false) →
    pyFmtGo m l (some acc) = .error .valueError := by
  intro l
  induction l with
  | nil => intro acc h; rfl
  | cons c cs ih =>
    intro acc h
    have hc := h c (by simp)
    rw [pyFmtGo_acc m c cs acc hc.2 hc.1]
    exact ih (c :: acc) (fun x hx => h x (by simp [hx]))

/-- A closing brace not doubled by another closing brace is an error in
literal mode (Python: single `\x7d` encountered). -/
theorem pyFmtGo_loneClose (m : String → Option String) (c : Char)
    (l : List Char) (hc : (c == '}') = false) :
    pyFmtGo m ('}' :: c :: l) none = .error .valueError := by
  rw [pyFmtGo.eq_def]
  split
  all_goals try simp_all
  all_goals
    rename_i hne1 hne2 heq
    exact absurd heq.1.symm hne2

/-- The format scanner consumes a brace-free field name up to the closing
brace, accumulating it in reverse. -/
theorem pyFmtGo_fieldScan (m : String → Option String) :
    ∀ k acc suf : List Char,
    (∀ x ∈ k, (x == '{') = false ∧ (x == '}') = false) →
    pyFmtGo m (k ++ '}' :: suf) (some acc) =
      pyFmtGo m ('}' :: suf) (some (k.reverse ++ acc)) := by
  intro k
  induction k with
  | nil => intro acc suf h; simp
  | cons c cs ih =>
    intro acc suf h
    have hc := h c (by simp)
    rw [List.cons_append, pyFmtGo_acc m c (cs ++ '}' :: suf) acc hc.2 hc.1,
      ih (c :: acc) suf (fun x hx => h x (by simp [hx]))]
    simp

/-- C9 counterexample: substitution is not pass-through on braces that
are not placeholders: Python formatting collapses the doubled brace in
`a\x7b\x7bb` to `a\x7bb` instead of leaving the text unchanged. -/
theorem c9_counterexample :
    pyFormat "a\x7b\x7bb" (fun _ => none) = .ok "a\x7bb" ∧
    (Except.ok ("a\x7bb" : String) : Except FmtErr String) ≠
      .ok "a\x7b\x7bb" :=
  ⟨by decide, by decide⟩

/-- C9 (amended): template substitution replaces each `\x7bKEY\x7d`
placeholder with the mapping's string value of `KEY`, and brace-free text
reaches the output unchanged; but the substitution is escaping-aware, not
pass-through: a doubled `\x7b\x7b` or `\x7d\x7d` is collapsed to a single
literal brace, and a lone unmatched brace — an opening brace never closed
in the brace-free remainder, or a closing brace not doubled — is a
formatting error, so brace text does not reach the output unchanged. -/
theorem c9_template_substitution (m : String → Option String) :
    (∀ t : String, braceFree t = true → pyFormat t m = .ok t) ∧
    (∀ pre k v suf : String, m k = some v → braceFree pre = true →
      braceFree k = true → k.data.all Char.isDigit = false →
      pyFormat (pre ++ "\x7b" ++ k ++ "\x7d" ++ suf) m =
        (match pyFormat suf m with
         | .ok s => .ok (pre ++ v ++ s)
         | .error e => .error e)) ∧
    (∀ suf : String, pyFormat ("\x7b\x7b" ++ suf) m =
      (match pyFormat suf m with
       | .ok s => .ok ("\x7b" ++ s)
       | .error e => .error e)) ∧
    (∀ suf : String, pyFormat ("\x7d\x7d" ++ suf) m =
      (match pyFormat suf m with
       | .ok s => .ok ("\x7d" ++ s)
       | .error e => .error e)) ∧
    (∀ pre t : String, braceFree pre = true → braceFree t = true →
      pyFormat (pre ++ "\x7b" ++ t) m = .error .valueError) ∧
    (∀ pre t : String, braceFree pre = true →
      strStartsWithChar t '}' = false →
      pyFormat (pre ++ "\x7d" ++ t) m = .error .valueError) := by
  refine ⟨?_, ?_, ?_, ?_, ?_, ?_⟩
  · intro t ht
    have ht' := braceFree_spec t ht
    have hgo : pyFmtGo m t.data none = .ok t.data := by
      have hl := pyFmtGo_litPrefix m t.data [] ht'
      rw [List.append_nil] at hl
      rw [hl]
      simp [pyFmtGo, exPrepend]
    unfold pyFormat
    rw [hgo]
  · intro pre k v suf hv hpre hk hdig
    have hpre' := braceFree_spec pre hpre
    have hk' := braceFree_spec k hk
    have hkd : k.data ≠ [] := by
      intro h0
      rw [h0] at hdig
      simp at hdig
    have hdata : (pre ++ "\x7b" ++ k ++ "\x7d" ++ suf).data =
        pre.data ++ ('{' :: (k.data ++ ('}' :: suf.data))) := by
      simp only [String.data_append, List.append_assoc]
      rfl
    have hgo : pyFmtGo m ((pre ++ "\x7b" ++ k ++ "\x7d" ++ suf)).data none =
        exPrepend pre.data (exPrepend v.data (pyFmtGo m suf.data none)) := by
      rw [hdata, pyFmtGo_litPrefix m pre.data _ hpre']
      cases hkc : k.data with
      | nil => exact absurd hkc hkd
      | cons c cs =>
        have hc := hk' c (by rw [hkc]; simp)
        have hinner : pyFmtGo m ('{' :: (c :: cs ++ ('}' :: suf.data)))
            none = exPrepend v.data (pyFmtGo m suf.data none) := by
          rw [List.cons_append,
            pyFmtGo_openField m c (cs ++ '}' :: suf.data) hc.1,
            ← List.cons_append,
            pyFmtGo_fieldScan m (c :: cs) [] suf.data
              (by rw [← hkc]; exact hk'),
            pyFmtGo_close]
          rw [List.append_nil, List.reverse_reverse, ← hkc]
          rw [if_neg (by simp [hdig])]
          have hmk : (⟨k.data⟩ : String) = k := rfl
          rw [hmk, hv]
        rw [hinner]
    cases hs : pyFmtGo m suf.data none with
    | error e =>
      have h1 : pyFormat (pre ++ "\x7b" ++ k ++ "\x7d" ++ suf) m =
          .error e := by
        unfold pyFormat
        rw [hgo, hs]
        simp [exPrepend]
      have h2 : pyFormat suf m = .error e := by
        unfold pyFormat
        rw [hs]
      rw [h1, h2]
    | ok l =>
      have h1 : pyFormat (pre ++ "\x7b" ++ k ++ "\x7d" ++ suf) m =
          .ok ⟨pre.data ++ (v.data ++ l)⟩ := by
        unfold pyFormat
        rw [hgo, hs]
        simp [exPrepend]
      have h2 : pyFormat suf m = .ok ⟨l⟩ := by
        unfold pyFormat
        rw [hs]
      rw [h1, h2]
      simp only
      congr 1
      apply String.ext
      simp only [String.data_append, List.append_assoc]
  · intro suf
    have hdata : ("\x7b\x7b" ++ suf).data = '{' :: '{' :: suf.data := rfl
    have hgo : pyFmtGo m ('{' :: '{' :: suf.data) none =
        exCons '{' (pyFmtGo m suf.data none) := rfl
    cases hs : pyFmtGo m suf.data none with
    | error e =>
      unfold pyFormat
      rw [hdata, hgo, hs]
      simp [exCons]
    | ok l =>
      unfold pyFormat
      rw [hdata, hgo, hs]
      simp only [exCons]
      congr 1
  · intro suf
    have hdata : ("\x7d\x7d" ++ suf).data = '}' :: '}' :: suf.data := rfl
    have hgo : pyFmtGo m ('}' :: '}' :: suf.data) none =
        exCons '}' (pyFmtGo m suf.data none) := rfl
    cases hs : pyFmtGo m suf.data none with
    | error e =>
      unfold pyFormat
      rw [hdata, hgo, hs]
      simp [exCons]
    | ok l =>
      unfold pyFormat
      rw [hdata, hgo, hs]
      simp only [exCons]
      congr 1
  · intro pre t hpre ht
    have hpre' := braceFree_spec pre hpre
    have ht' := braceFree_spec t ht
    have hdata : (pre ++ "\x7b" ++ t).data =
        pre.data ++ ('{' :: t.data) := by
      simp only [String.data_append, List.append_assoc]
      rfl
    have hgo : pyFmtGo m ((pre ++ "\x7b" ++ t)).data none =
        .error .valueError := by
      rw [hdata, pyFmtGo_litPrefix m pre.data _ hpre']
      cases htc : t.data with
      | nil => rfl
      | cons c cs =>
        have hc := ht' c (by rw [htc]; simp)
        rw [pyFmtGo_openField m c cs hc.1,
          pyFmtGo_fieldNoClose m (c :: cs) [] (by rw [← htc]; exact ht')]
        rfl
    unfold pyFormat
    rw [hgo]
  · intro pre t hpre ht
    have hpre' := braceFree_spec pre hpre
    have hdata : (pre ++ "\x7d" ++ t).data =
        pre.data ++ ('}' :: t.data) := by
      simp only [String.data_append, List.append_assoc]
      rfl
    have hgo : pyFmtGo m ((pre ++ "\x7d" ++ t)).data none =
        .error .valueError := by
      rw [hdata, pyFmtGo_litPrefix m pre.data _ hpre']
      cases htc : t.data with
      | nil => rfl
      | cons c cs =>
        have hc : (c == '}') = false := by
          simp only [strStartsWithChar, htc] at ht
          exact ht
        rw [pyFmtGo_loneClose m c cs hc]
        rfl
    unfold pyFormat
    rw [hgo]

/-- Witness for C9 (amended) at concrete templates against the default
mapping: brace-free pass-through, the `HOST=\x7bAPI_HOST\x7d` placeholder,
both escape collapses, and the two lone-unmatched-brace errors. -/
theorem c9_template_substitution_witness :
    (pyFormat "plain text" cfgDefault = .ok "plain text") ∧
    (pyFormat ("HOST=" ++ "\x7b" ++ "API_HOST" ++ "\x7d" ++ "") cfgDefault =
      (match pyFormat "" cfgDefault with
       | .ok s => .ok ("HOST=" ++ "localhost" ++ s)
       | .error e => .error e)) ∧
    (pyFormat ("\x7b\x7b" ++ "x") cfgDefault =
      (match pyFormat "x" cfgDefault with
       | .ok s => .ok ("\x7b" ++ s)
       | .error e => .error e)) ∧
    (pyFormat ("\x7d\x7d" ++ "x") cfgDefault =
      (match pyFormat "x" cfgDefault with
       | .ok s => .ok ("\x7d" ++ s)
       | .error e => .error e)) ∧
    (pyFormat ("a" ++ "\x7b" ++ "bc") cfgDefault = .error .valueError) ∧
    (pyFormat ("a" ++ "\x7d" ++ "bc") cfgDefault = .error .valueError) :=
  ⟨(c9_template_substitution cfgDefault).1 "plain text" (by decide),
   (c9_template_substitution cfgDefault).2.1 "HOST=" "API_HOST"
     "localhost" "" (by decide) (by decide) (by decide) (by decide),
   (c9_template_substitution cfgDefault).2.2.1 "x",
   (c9_template_substitution cfgDefault).2.2.2.1 "x",
   (c9_template_substitution cfgDefault).2.2.2.2.1 "a" "bc"
     (by decide) (by decide),
   (c9_template_substitution cfgDefault).2.2.2.2.2 "a" "bc"
     (by decide) (by decide)⟩

end OciEnv
